import Mathlib

/-!
Verification development for the libcyphal transport core (OpenCyphal-Garage/libuavcan
repository, `include/libcyphal/...`).  The definitions below are a shallow embedding of
the C++ sources:

* `libcyphal/transport/udp/udp_transport_impl.hpp` — the UDP `TransportImpl` class:
  node-id policy, lazy TX/RX socket creation, the TX drain loop
  (`runSingleMediaTransmit`), the per-media loops (`runMediaTransmit`,
  `runMediaReceive`, `sendAnyTransfer`), session factories and the transient-error
  routing helpers (`tryHandleTransientMediaError`, `tryHandleTransientUdpardResult`).
* `libcyphal/transport/can/msg_tx_session.hpp` — the CAN `MessageTxSession`.
* `libcyphal/executor.hpp` — `IExecutor::Callback::Handle` move/reset semantics.

Machine integers are modelled as `Nat` (all values involved are non-negative and no
arithmetic here can overflow 64 bits); time points and durations are in microseconds.
External collaborators (media socket factories, socket `send`/`receive`, the udpard
framer results, concrete session constructors) are modelled as oracle values carried
in the state, exactly where the C++ code calls a virtual/extern function and branches
on its result.
-/

namespace Libcyphal

/-- Failure values of the transport surface.  Modelled from the spec: the error
taxonomy of `libcyphal/transport/errors.hpp` is not among the provided sources;
the spec lists `ArgumentError`, `MemoryError`, `PlatformError(code)`, a duplicate
(already-exists) error at the session trees, and framer-specific kinds mapped
one-to-one from negative udpard result codes. -/
inductive AnyFailure where
  | argument : AnyFailure
  | memory : AnyFailure
  | platform (code : Nat) : AnyFailure
  | duplicate : AnyFailure
  | udpard (code : Int) : AnyFailure
deriving DecidableEq, Repr

/-- Tags of `TransientErrorReport::Variant` alternatives (udp_transport_impl.hpp):
which operation produced the transient failure. -/
inductive ReportKind where
  | mediaMakeTxSocket
  | mediaMakeRxSocket
  | mediaTxSocketSend
  | mediaRxSocketReceive
  | udpardTxPublish
  | udpardTxRequest
  | udpardTxRespond
  | udpardRxSvcReceive
deriving DecidableEq, Repr

/-- A transient-error report: the originating failure, the media index and the
report alternative tag.  The C++ report also carries a reference to the culprit
object (socket / media interface / udpard instance), which has no observable
content at this level of modelling. -/
structure TransientErrorReport where
  failure : AnyFailure
  mediaIndex : Nat
  kind : ReportKind

/-- The optional user-supplied transient-error handler
(`transient_error_handler_` member; `cetl::optional` of a function). -/
def TransientErrorHandler := Option (TransientErrorReport → Option AnyFailure)

/-- Shallow embedding of `TransportImpl::tryHandleTransientMediaError`:
if no handler is set the failure itself is returned; otherwise the handler's
verdict (`none` = swallow, `some f` = propagate `f`) is returned. -/
def tryHandleTransientMediaError (handler : TransientErrorHandler)
    (report : TransientErrorReport) : Option AnyFailure :=
  match handler with
  | none => some report.failure
  | some h => h report

/-- Shallow embedding of `optAnyFailureFromUdpard` (common tools): a negative
udpard result code maps to a failure, a non-negative one to success. -/
def optAnyFailureFromUdpard (result : Int) : Option AnyFailure :=
  if result < 0 then some (AnyFailure.udpard result) else none

/-- Shallow embedding of `TransportImpl::tryHandleTransientUdpardResult`:
convert the udpard result code; when it is a failure and a handler is set, the
handler's verdict replaces the failure. -/
def tryHandleTransientUdpardResult (handler : TransientErrorHandler)
    (mediaIndex : Nat) (kind : ReportKind) (result : Int) : Option AnyFailure :=
  match optAnyFailureFromUdpard result with
  | none => none
  | some f =>
    match handler with
    | none => some f
    | some h => h ⟨f, mediaIndex, kind⟩

/-- One item of a media's udpard TX queue (`UdpardTxItem`): the absolute deadline
in microseconds, a tag identifying the logical transfer the frame belongs to
(frames of one transfer are chained via `next_in_transfer` in udpard; the tag
plays that role here), the destination endpoint, the DSCP value and an abstract
payload identifier. -/
structure TxItem where
  deadlineUsec : Nat
  transferTag : Nat
  destination : Nat
  dscp : Nat
  payload : Nat
deriving DecidableEq, Repr

/-- Result of `ITxSocket::send`: either `SendResult::Success {is_accepted}` or a
`SendResult::Failure`. -/
inductive SendOutcome where
  | success (isAccepted : Bool)
  | failure (f : AnyFailure)
deriving Repr

/-- Shallow embedding of `popAndFreeUdpardTxItem(&tx, item, true /*whole transfer*/)`
applied at the queue head: all frames chained to the head's logical transfer are
removed.  Modelled from the spec: the helper lives in `udp/delegate.hpp` (not among
the provided sources); the spec states that the entire logical transfer — all
fragments sharing its transfer id — is popped. -/
def popWholeTransfer (item : TxItem) (rest : List TxItem) : List TxItem :=
  rest.filter (fun i => ¬ i.transferTag = item.transferTag)

theorem popWholeTransfer_length_le (item : TxItem) (rest : List TxItem) :
    (popWholeTransfer item rest).length ≤ rest.length :=
  List.length_filter_le _ rest

/-- Shallow embedding of `TransportImpl::runSingleMediaTransmit` (the TX drain loop
for one medium): while the queue has a head item, drop the whole transfer if the
deadline expired (`now >= deadline`), otherwise call the TX socket's `send`; on
send failure pop the whole transfer and route the failure through the
transient-error handler (propagate and stop if that yields a failure); on
`is_accepted = false` (would-block) stop without popping; on acceptance pop the
single frame.  `sendFn` is the TX socket `send` oracle.  Returns the remaining
queue, the list of items that were handed to `send` (in call order), and the
failure propagated out of the loop, if any. -/
def runSingleMediaTransmit (handler : TransientErrorHandler)
    (sendFn : TxItem → SendOutcome) (mediaIndex : Nat) (now : Nat) :
    List TxItem → List TxItem × List TxItem × Option AnyFailure
  | [] => ([], [], none)
  | item :: rest =>
    if now ≥ item.deadlineUsec then
      runSingleMediaTransmit handler sendFn mediaIndex now (popWholeTransfer item rest)
    else
      match sendFn item with
      | SendOutcome.failure f =>
        match tryHandleTransientMediaError handler ⟨f, mediaIndex, ReportKind.mediaTxSocketSend⟩ with
        | some f2 => (popWholeTransfer item rest, [item], some f2)
        | none =>
          let r := runSingleMediaTransmit handler sendFn mediaIndex now (popWholeTransfer item rest)
          (r.1, item :: r.2.1, r.2.2)
      | SendOutcome.success isAccepted =>
        if isAccepted then
          let r := runSingleMediaTransmit handler sendFn mediaIndex now rest
          (r.1, item :: r.2.1, r.2.2)
        else
          (item :: rest, [item], none)
  termination_by q => q.length
  decreasing_by
    · simpa using Nat.lt_succ_of_le (popWholeTransfer_length_le item rest)
    · simpa using Nat.lt_succ_of_le (popWholeTransfer_length_le item rest)
    · simp

/-- Result of `IMedia::makeTxSocket` / `IMedia::makeRxSocket`: either a
`Failure`, or a `Success` unique pointer which may still be null
(`valid = false`), which the transport maps to `MemoryError`. -/
inductive MakeSocketResult where
  | failure (f : AnyFailure)
  | success (valid : Bool)
deriving Repr

/-- Result of a single `IRxSocket::receive` call: a `Failure`, an empty optional
(nothing received), or a datagram with its reception timestamp and an abstract
payload identifier. -/
inductive ReceiveOutcome where
  | failure (f : AnyFailure)
  | nothing
  | datagram (timestampUsec : Nat) (payload : Nat)
deriving Repr

/-- An IP endpoint (`IpEndpoint`): IP address and UDP port, as plain numbers. -/
structure IpEndpoint where
  ipAddress : Nat
  udpPort : Nat
deriving DecidableEq, Repr

/-- The per-medium state (`TransportImpl::Media`): the stable index, whether the
TX socket exists, the RX socket together with the endpoint it was created at
(`none` = not created), and the udpard TX queue.  The remaining fields are
oracles standing for the medium's external collaborators: the outcome
`makeTxSocket` / `makeRxSocket` would produce if called, the TX socket's `send`
behaviour, the RX socket's single `receive` outcome for this tick, and the
udpard RPC-dispatcher result code for a received datagram. -/
structure MediaSt where
  index : Nat
  txSocket : Bool
  rxSocket : Option IpEndpoint
  txQueue : List TxItem
  mkTx : MakeSocketResult
  mkRx : MakeSocketResult
  sendFn : TxItem → SendOutcome
  recvOutcome : ReceiveOutcome
  dispResult : Int

/-- Shallow embedding of `TransportImpl::withEnsureMediaTxSocket`: if the TX
socket is absent, try to create it (routing a creation failure, or a null
success, through the transient-error handler and returning without running the
action); otherwise run the action on the medium with the socket present. -/
def withEnsureMediaTxSocket (handler : TransientErrorHandler) (m : MediaSt)
    (action : MediaSt → MediaSt × Option AnyFailure) : MediaSt × Option AnyFailure :=
  if m.txSocket then
    action m
  else
    match m.mkTx with
    | MakeSocketResult.failure f =>
      (m, tryHandleTransientMediaError handler ⟨f, m.index, ReportKind.mediaMakeTxSocket⟩)
    | MakeSocketResult.success false =>
      (m, tryHandleTransientMediaError handler
        ⟨AnyFailure.memory, m.index, ReportKind.mediaMakeTxSocket⟩)
    | MakeSocketResult.success true =>
      action { m with txSocket := true }

/-- The loop body of `TransportImpl::runMediaTransmit` for one medium: ensure
the TX socket and drain the medium's queue via `runSingleMediaTransmit` (the
lambda passed to `withEnsureMediaTxSocket` in the source). -/
def transmitViaMedia (handler : TransientErrorHandler) (now : Nat) (m : MediaSt) :
    MediaSt × Option AnyFailure :=
  withEnsureMediaTxSocket handler m (fun m2 =>
    let r := runSingleMediaTransmit handler m2.sendFn m2.index now m2.txQueue
    ({ m2 with txQueue := r.1 }, r.2.2))

/-- Shallow embedding of the TX half of `TransportImpl::run`
(`runMediaTransmit`): iterate the media in array order; for each, ensure the TX
socket and drain its queue via `runSingleMediaTransmit`; a propagated failure
stops the loop immediately, leaving the remaining media untouched. -/
def runMediaTransmit (handler : TransientErrorHandler) (now : Nat) :
    List MediaSt → List MediaSt × Option AnyFailure
  | [] => ([], none)
  | m :: ms =>
    let step := transmitViaMedia handler now m
    match step.2 with
    | some f => (step.1 :: ms, some f)
    | none =>
      let rest := runMediaTransmit handler now ms
      (step.1 :: rest.1, rest.2)

/-- Shallow embedding of `TransportImpl::ensureMediaTxSockets`: ensure a TX
socket on every medium (with a no-op action), stopping at the first propagated
failure. -/
def ensureMediaTxSockets (handler : TransientErrorHandler) :
    List MediaSt → List MediaSt × Option AnyFailure
  | [] => ([], none)
  | m :: ms =>
    let step := withEnsureMediaTxSocket handler m (fun m2 => (m2, none))
    match step.2 with
    | some f => (step.1 :: ms, some f)
    | none =>
      let rest := ensureMediaTxSockets handler ms
      (step.1 :: rest.1, rest.2)

/-- The three alternatives of `AnyUdpardTxMetadata::Variant` handed to
`sendAnyTransfer` (deadline, priority, port/node ids and transfer id). -/
inductive TxMetadataVar where
  | publish (deadlineUsec priority subjectId transferId : Nat)
  | request (deadlineUsec priority serviceId serverNodeId transferId : Nat)
  | respond (deadlineUsec priority serviceId clientNodeId transferId : Nat)
deriving DecidableEq, Repr

/-- The report alternative used by `TxTransferHandler` for each metadata
variant (`UdpardTxPublish` / `UdpardTxRequest` / `UdpardTxRespond`). -/
def kindOfTxMetadata : TxMetadataVar → ReportKind
  | TxMetadataVar.publish _ _ _ _ => ReportKind.udpardTxPublish
  | TxMetadataVar.request _ _ _ _ _ => ReportKind.udpardTxRequest
  | TxMetadataVar.respond _ _ _ _ _ => ReportKind.udpardTxRespond

/-- The loop body of `TransportImpl::sendAnyTransfer` for one medium: ensure the
TX socket and push the transfer into the medium's udpard TX queue
(`udpardTx[Publish|Request|Respond]` via `TxTransferHandler`, whose result code
is the `pushResult` oracle), routing a negative result through
`tryHandleTransientUdpardResult`.  The frames that udpard appends to the queue
on success are produced by the framer (an external collaborator) and are not
modelled. -/
def pushViaMedia (handler : TransientErrorHandler) (meta : TxMetadataVar)
    (pushResult : Nat → Int) (m : MediaSt) : MediaSt × Option AnyFailure :=
  withEnsureMediaTxSocket handler m (fun m2 =>
    (m2, tryHandleTransientUdpardResult handler m2.index (kindOfTxMetadata meta)
      (pushResult m2.index)))

/-- The media loop of `TransportImpl::sendAnyTransfer`: push the transfer into
every medium's udpard TX queue via `pushViaMedia`; a propagated failure stops
the loop, leaving the remaining media untouched. -/
def sendTransferLoop (handler : TransientErrorHandler) (meta : TxMetadataVar)
    (pushResult : Nat → Int) : List MediaSt → List MediaSt × Option AnyFailure
  | [] => ([], none)
  | m :: ms =>
    let step := pushViaMedia handler meta pushResult m
    match step.2 with
    | some f => (step.1 :: ms, some f)
    | none =>
      let rest := sendTransferLoop handler meta pushResult ms
      (step.1 :: rest.1, rest.2)

/-- Shallow embedding of `TransportImpl::sendAnyTransfer`: first flatten the
payload fragments into a contiguous buffer (`payloadOk = false` models the
allocation failure `data == nullptr && size > 0`, returned as `MemoryError`
before any medium is touched), then run the per-media push loop. -/
def sendAnyTransfer (handler : TransientErrorHandler) (meta : TxMetadataVar)
    (pushResult : Nat → Int) (payloadOk : Bool) (ms : List MediaSt) :
    List MediaSt × Option AnyFailure :=
  if payloadOk then
    sendTransferLoop handler meta pushResult ms
  else
    (ms, some AnyFailure.memory)

/-- A record of one `IMedia::makeRxSocket` invocation: the media index and the
endpoint argument. -/
structure RxMakeCall where
  mediaIndex : Nat
  endpoint : IpEndpoint
deriving DecidableEq, Repr

/-- Shallow embedding of `TransportImpl::withEnsureMediaRxSocket`: if the RX
socket is absent and the service-RX endpoint is not derived yet (node id unset),
return success without doing anything; if it is absent and the endpoint exists,
invoke `makeRxSocket(endpoint)` (recorded in the returned call list), routing a
creation failure, or a null success, through the transient-error handler;
otherwise run the action.  Returns the updated medium, the `makeRxSocket`
invocations performed, and the propagated failure if any. -/
def withEnsureMediaRxSocket (handler : TransientErrorHandler)
    (endpoint : Option IpEndpoint) (m : MediaSt)
    (action : MediaSt → MediaSt × Option AnyFailure) :
    MediaSt × List RxMakeCall × Option AnyFailure :=
  match m.rxSocket with
  | some _ =>
    let r := action m
    (r.1, [], r.2)
  | none =>
    match endpoint with
    | none => (m, [], none)
    | some ep =>
      match m.mkRx with
      | MakeSocketResult.failure f =>
        (m, [⟨m.index, ep⟩],
          tryHandleTransientMediaError handler ⟨f, m.index, ReportKind.mediaMakeRxSocket⟩)
      | MakeSocketResult.success false =>
        (m, [⟨m.index, ep⟩],
          tryHandleTransientMediaError handler
            ⟨AnyFailure.memory, m.index, ReportKind.mediaMakeRxSocket⟩)
      | MakeSocketResult.success true =>
        let r := action { m with rxSocket := some ep }
        (r.1, [⟨m.index, ep⟩], r.2)

/-- Shallow embedding of `TransportImpl::runSingleMediaReceive`: one `receive`
call on the RX socket; a failure is routed through the transient-error handler;
an empty optional yields success; a datagram goes to the udpard RPC dispatcher,
whose result code (`dispResult` oracle) is routed through
`tryHandleTransientUdpardResult`; when no failure is propagated and the result
is positive, the completed transfer is delivered to the owning session delegate
(returned here as the `Bool` component). -/
def runSingleMediaReceive (handler : TransientErrorHandler) (m : MediaSt) :
    Option AnyFailure × Bool :=
  match m.recvOutcome with
  | ReceiveOutcome.failure f =>
    (tryHandleTransientMediaError handler ⟨f, m.index, ReportKind.mediaRxSocketReceive⟩, false)
  | ReceiveOutcome.nothing => (none, false)
  | ReceiveOutcome.datagram _ _ =>
    let failure :=
      tryHandleTransientUdpardResult handler m.index ReportKind.udpardRxSvcReceive m.dispResult
    (failure, failure.isNone && decide (m.dispResult > 0))

/-- The loop body of `TransportImpl::runMediaReceive` for one medium: ensure the
RX socket (gated on the service-RX endpoint) and run one receive step (the
lambda passed to `withEnsureMediaRxSocket` in the source). -/
def receiveViaMedia (handler : TransientErrorHandler) (endpoint : Option IpEndpoint)
    (m : MediaSt) : MediaSt × List RxMakeCall × Option AnyFailure :=
  withEnsureMediaRxSocket handler endpoint m (fun m2 =>
    (m2, (runSingleMediaReceive handler m2).1))

/-- Shallow embedding of the RX half of `TransportImpl::run`
(`runMediaReceive`): iterate the media in array order; a propagated failure
stops the loop, leaving the remaining media untouched.  Also returns the
concatenated `makeRxSocket` call record. -/
def runMediaReceive (handler : TransientErrorHandler) (endpoint : Option IpEndpoint) :
    List MediaSt → List MediaSt × List RxMakeCall × Option AnyFailure
  | [] => ([], [], none)
  | m :: ms =>
    let step := receiveViaMedia handler endpoint m
    match step.2.2 with
    | some f => (step.1 :: ms, step.2.1, some f)
    | none =>
      let rest := runMediaReceive handler endpoint ms
      (step.1 :: rest.1, step.2.1 ++ rest.2.1, rest.2.2)

/-- Shallow embedding of `TransportImpl::ensureMediaRxSockets`: ensure an RX
socket on every medium (with a no-op action), stopping at the first propagated
failure.  Also returns the concatenated `makeRxSocket` call record. -/
def ensureMediaRxSockets (handler : TransientErrorHandler) (endpoint : Option IpEndpoint) :
    List MediaSt → List MediaSt × List RxMakeCall × Option AnyFailure
  | [] => ([], [], none)
  | m :: ms =>
    let step := withEnsureMediaRxSocket handler endpoint m (fun m2 => (m2, none))
    match step.2.2 with
    | some f => (step.1 :: ms, step.2.1, some f)
    | none =>
      let rest := ensureMediaRxSockets handler endpoint ms
      (step.1 :: rest.1, step.2.1 ++ rest.2.1, rest.2.2)

/-- Upper bound of valid UDP node ids (`UDPARD_NODE_ID_MAX` in udpard.h). -/
def UDPARD_NODE_ID_MAX : Nat := 0xFFFE

/-- The unset (anonymous) node-id sentinel (`UDPARD_NODE_ID_UNSET`). -/
def UDPARD_NODE_ID_UNSET : Nat := 0xFFFF

/-- Derivation of the service-RX multicast endpoint from the node id, as done by
`TransportDelegate::setNodeId`.  Modelled from the spec: `udp/delegate.hpp` is
not among the provided sources; the spec only states that setting the node id
derives and stores the service-RX endpoint, so any injective derivation is
adequate (Cyphal/UDP uses the fixed port 9382 and a multicast group carrying the
node id in its low bits). -/
def serviceRxEndpointOf (nodeId : Nat) : IpEndpoint :=
  ⟨0xEF010000 + nodeId, 9382⟩

/-- The transport-level state of `TransportImpl` relevant to the node-id policy
and the media loops: the udpard node id (`UDPARD_NODE_ID_UNSET` = anonymous),
the cached service-RX endpoint (`svc_rx_sockets_endpoint_`), the optional
transient-error handler, and the media array. -/
structure TransportState where
  nodeId : Nat
  svcRxSocketsEndpoint : Option IpEndpoint
  handler : TransientErrorHandler
  media : List MediaSt

/-- Shallow embedding of `TransportImpl::getLocalNodeId`: `none` while the node
id exceeds `UDPARD_NODE_ID_MAX` (i.e. is unset), otherwise the stored id. -/
def getLocalNodeId (s : TransportState) : Option Nat :=
  if s.nodeId > UDPARD_NODE_ID_MAX then none else some s.nodeId

/-- Shallow embedding of `TransportImpl::setLocalNodeId`: reject out-of-range
ids; accept an id equal to the current one without change; reject any other id
once one is set; otherwise store the id and derive the service-RX endpoint.
The returned failure, when present, is always `ArgumentError`. -/
def setLocalNodeId (s : TransportState) (newNodeId : Nat) :
    Option AnyFailure × TransportState :=
  if newNodeId > UDPARD_NODE_ID_MAX then
    (some AnyFailure.argument, s)
  else if s.nodeId = newNodeId then
    (none, s)
  else if s.nodeId ≠ UDPARD_NODE_ID_UNSET then
    (some AnyFailure.argument, s)
  else
    (none, { s with
      nodeId := newNodeId,
      svcRxSocketsEndpoint := some (serviceRxEndpointOf newNodeId) })

/-- The state of a medium as produced by the `TransportImpl` constructor: both
sockets absent and the udpard TX queue freshly initialized (empty); the oracle
fields describe the medium's external behaviour and are kept. -/
def freshMedia (m : MediaSt) : MediaSt :=
  { m with txSocket := false, rxSocket := none, txQueue := [] }

/-- The state of a freshly constructed transport (`TransportImpl::make` plus
constructor): node id unset, no service-RX endpoint, no transient-error handler,
all media with both sockets absent and empty TX queues. -/
def initTransport (media : List MediaSt) : TransportState :=
  { nodeId := UDPARD_NODE_ID_UNSET,
    svcRxSocketsEndpoint := none,
    handler := none,
    media := media.map freshMedia }

/-- Shallow embedding of `TransportImpl::run`: drain TX for all media first, and
only if that propagated no failure, pump RX for all media. -/
def run (s : TransportState) (now : Nat) :
    TransportState × List RxMakeCall × Option AnyFailure :=
  let tx := runMediaTransmit s.handler now s.media
  match tx.2 with
  | some f => ({ s with media := tx.1 }, [], some f)
  | none =>
    let rx := runMediaReceive s.handler s.svcRxSocketsEndpoint tx.1
    ({ s with media := rx.1 }, rx.2.1, rx.2.2)

/-- Shared body of the three TX-session factories
(`makeMessageTxSession` / `makeRequestTxSession` / `makeResponseTxSession`):
first ensure a TX socket on every medium, returning the failure if that
propagates one, otherwise construct the session (`mkSession` is the outcome of
the concrete session constructor, `none` = success).  The `Bool` component
records whether a session was created. -/
def makeTxSessionViaEnsure (s : TransportState) (mkSession : Option AnyFailure) :
    TransportState × Option AnyFailure × Bool :=
  let e := ensureMediaTxSockets s.handler s.media
  let s2 := { s with media := e.1 }
  match e.2 with
  | some f => (s2, some f, false)
  | none =>
    match mkSession with
    | some f => (s2, some f, false)
    | none => (s2, none, true)

/-- Shallow embedding of `TransportImpl::makeMessageTxSession`. -/
def makeMessageTxSession (s : TransportState) (mkSession : Option AnyFailure) :
    TransportState × Option AnyFailure × Bool :=
  makeTxSessionViaEnsure s mkSession

/-- Shallow embedding of `TransportImpl::makeRequestTxSession`. -/
def makeRequestTxSession (s : TransportState) (mkSession : Option AnyFailure) :
    TransportState × Option AnyFailure × Bool :=
  makeTxSessionViaEnsure s mkSession

/-- Shallow embedding of `TransportImpl::makeResponseTxSession`. -/
def makeResponseTxSession (s : TransportState) (mkSession : Option AnyFailure) :
    TransportState × Option AnyFailure × Bool :=
  makeTxSessionViaEnsure s mkSession

/-- Shallow embedding of `SessionTree::ensureNewNodeFor`.  Modelled from the
spec: `udp/session_tree.hpp` is not among the provided sources; per the spec's
session-tree interface, `ensure_new(key)` yields a new node keyed by `key`, or a
duplicate error if a node with that key already exists.  The tree is modelled by
its key list. -/
def ensureNewNodeFor (tree : List Nat) (portId : Nat) : List Nat × Option AnyFailure :=
  if portId ∈ tree then (tree, some AnyFailure.duplicate)
  else (portId :: tree, none)

/-- Shallow embedding of `SessionTree::removeNodeFor`.  Modelled from the spec:
`udp/session_tree.hpp` is not among the provided sources; `remove(key)` removes
the node keyed by `key`. -/
def removeNodeFor (tree : List Nat) (portId : Nat) : List Nat :=
  tree.filter (fun k => ¬ k = portId)

/-- Shallow embedding of `TransportImpl::makeAnyRxSession`: insert a new tree
node for the port id (failing on a duplicate without touching the tree), then
construct the concrete session (`mkSession` oracle); on construction failure the
just-inserted node is removed again (rollback).  The `Bool` component records
whether a session was created. -/
def makeAnyRxSession (tree : List Nat) (portId : Nat) (mkSession : Option AnyFailure) :
    List Nat × Option AnyFailure × Bool :=
  let ins := ensureNewNodeFor tree portId
  match ins.2 with
  | some f => (ins.1, some f, false)
  | none =>
    match mkSession with
    | some f => (removeNodeFor ins.1 portId, some f, false)
    | none => (ins.1, none, true)

/-- The `SessionEvent::Variant` alternatives delivered to
`TransportImpl::onSessionEvent` (only `Destroyed` events exist). -/
inductive SessionEvent where
  | msgDestroyed (subjectId : Nat)
  | reqDestroyed (serviceId : Nat)
  | resDestroyed (serviceId : Nat)
deriving DecidableEq, Repr

/-- The three RX-session trees of `TransportImpl` (message, service-request and
service-response), each modelled by its key list. -/
structure SessionTrees where
  msg : List Nat
  req : List Nat
  res : List Nat
deriving DecidableEq, Repr

/-- Shallow embedding of `TransportImpl::onSessionEvent`: a `Destroyed` event
removes the matching node from the corresponding tree. -/
def onSessionEvent (t : SessionTrees) : SessionEvent → SessionTrees
  | SessionEvent.msgDestroyed subjectId => { t with msg := removeNodeFor t.msg subjectId }
  | SessionEvent.reqDestroyed serviceId => { t with req := removeNodeFor t.req serviceId }
  | SessionEvent.resDestroyed serviceId => { t with res := removeNodeFor t.res serviceId }

/-- Upper bound of valid CAN subject ids (`CANARD_SUBJECT_ID_MAX` in canard.h). -/
def CANARD_SUBJECT_ID_MAX : Nat := 8191

/-- The unset CAN node-id sentinel (`CANARD_NODE_ID_UNSET` in canard.h). -/
def CANARD_NODE_ID_UNSET : Nat := 255

/-- The CAN message transfer kind tag (`CanardTransferKindMessage` in canard.h). -/
def CanardTransferKindMessage : Nat := 0

/-- User-facing transfer metadata (`TransferMetadata`): transfer id, the
timestamp (microseconds) and the priority. -/
structure TransferMetadata where
  transferId : Nat
  timestampUsec : Nat
  priority : Nat
deriving DecidableEq, Repr

/-- The `CanardTransferMetadata` record built by `MessageTxSession::send`. -/
structure CanardTransferMetadata where
  priority : Nat
  transferKind : Nat
  portId : Nat
  remoteNodeId : Nat
  transferId : Nat
deriving DecidableEq, Repr

/-- The arguments `MessageTxSession::send` hands to
`TransportDelegate::sendTransfer`: the absolute deadline (microseconds) and the
canard metadata. -/
structure SendTransferArgs where
  deadlineUsec : Nat
  metadata : CanardTransferMetadata
deriving DecidableEq, Repr

/-- State of a CAN `MessageTxSession`: its fixed params (the subject id) and the
current send timeout as a duration in microseconds. -/
structure CanMessageTxSession where
  subjectId : Nat
  sendTimeoutUsec : Nat
deriving DecidableEq, Repr

/-- Shallow embedding of `can::detail::MessageTxSession::make`: reject an
out-of-range subject id with `ArgumentError`; a failed allocation of the session
object (`allocOk = false`) yields `MemoryError`; otherwise the session starts
with the default send timeout `std::chrono::seconds{1}` (1 000 000 µs). -/
def CanMessageTxSession.make (subjectId : Nat) (allocOk : Bool) :
    Except AnyFailure CanMessageTxSession :=
  if subjectId > CANARD_SUBJECT_ID_MAX then Except.error AnyFailure.argument
  else if allocOk then Except.ok ⟨subjectId, 1000000⟩
  else Except.error AnyFailure.memory

/-- Shallow embedding of `MessageTxSession::setSendTimeout`. -/
def CanMessageTxSession.setSendTimeout (s : CanMessageTxSession)
    (timeoutUsec : Nat) : CanMessageTxSession :=
  { s with sendTimeoutUsec := timeoutUsec }

/-- Shallow embedding of `MessageTxSession::send`: builds the canard metadata
(message kind, the session's subject id, anonymous remote node) and delegates
with deadline `metadata.timestamp + send_timeout_`. -/
def CanMessageTxSession.send (s : CanMessageTxSession) (metadata : TransferMetadata) :
    SendTransferArgs :=
  ⟨metadata.timestampUsec + s.sendTimeoutUsec,
    ⟨metadata.priority, CanardTransferKindMessage, s.subjectId, CANARD_NODE_ID_UNSET,
      metadata.transferId⟩⟩

/-- Shallow embedding of `IExecutor::removeCallbackById` over the executor's set
of registered callback ids.  Modelled from the spec: the method is pure virtual
in `executor.hpp` (the platform implementation is not among the provided
sources); per its contract it removes the callback with the given id and reports
whether it was found. -/
def removeCallbackById (registered : List Nat) (id : Nat) : List Nat × Bool :=
  (registered.filter (fun i => ¬ i = id), decide (id ∈ registered))

/-- State of an `IExecutor::Callback::Handle`: the callback id and whether the
handle holds a non-null `executor_` pointer (i.e. owns the registration). -/
structure CallbackHandle where
  id : Nat
  owns : Bool
deriving DecidableEq, Repr

/-- A default-constructed `Handle` (`id_ = 0`, `executor_ = nullptr`). -/
def defaultCallbackHandle : CallbackHandle := ⟨0, false⟩

/-- Shallow embedding of `Handle::reset`: if the executor pointer is non-null,
remove the callback by id and null the pointer; otherwise do nothing.  The id is
kept either way. -/
def CallbackHandle.reset (h : CallbackHandle) (registered : List Nat) :
    CallbackHandle × List Nat :=
  if h.owns then (⟨h.id, false⟩, (removeCallbackById registered h.id).1)
  else (h, registered)

/-- Shallow embedding of the `Handle` destructor, which simply calls `reset`;
only the effect on the executor state remains. -/
def CallbackHandle.destroy (h : CallbackHandle) (registered : List Nat) : List Nat :=
  (h.reset registered).2

/-- Shallow embedding of `Handle::moveFrom` (used by both the move constructor
and move assignment): the destination is reset first, then takes the source's id
and executor pointer, while the source's pointer is exchanged with null (the
source keeps its id).  Returns (destination, source, executor state). -/
def CallbackHandle.moveFrom (dst src : CallbackHandle) (registered : List Nat) :
    CallbackHandle × CallbackHandle × List Nat :=
  let r := dst.reset registered
  (⟨src.id, src.owns⟩, ⟨src.id, false⟩, r.2)

/-- Shallow embedding of `IExecutor::registerCallback`: append the callback
(`newId` is the outcome of the pure-virtual `appendCallback`, `none` = out of
memory); on success the returned handle owns the registration. -/
def registerCallback (registered : List Nat) (newId : Option Nat) :
    List Nat × Option CallbackHandle :=
  match newId with
  | none => (registered, none)
  | some id => (registered ++ [id], some ⟨id, true⟩)

/-! Helper lemmas: single-step unfoldings of the TX drain loop, and the fact
that every item it touches comes from the input queue. -/

theorem mem_of_mem_popWholeTransfer {c item : TxItem} {rest : List TxItem}
    (h : c ∈ popWholeTransfer item rest) : c ∈ rest :=
  List.mem_of_mem_filter h

theorem tag_ne_of_mem_popWholeTransfer {c item : TxItem} {rest : List TxItem}
    (h : c ∈ popWholeTransfer item rest) : c.transferTag ≠ item.transferTag := by
  have hp := List.of_mem_filter h
  simpa using hp

theorem drain_cons_expired (handler : TransientErrorHandler)
    (sendFn : TxItem → SendOutcome) (idx now : Nat) (item : TxItem)
    (rest : List TxItem) (h : now ≥ item.deadlineUsec) :
    runSingleMediaTransmit handler sendFn idx now (item :: rest) =
      runSingleMediaTransmit handler sendFn idx now (popWholeTransfer item rest) := by
  rw [runSingleMediaTransmit]
  simp [h]

theorem drain_cons_fail_propagate (handler : TransientErrorHandler)
    (sendFn : TxItem → SendOutcome) (idx now : Nat) (item : TxItem)
    (rest : List TxItem) (f f2 : AnyFailure) (h1 : ¬ now ≥ item.deadlineUsec)
    (h2 : sendFn item = SendOutcome.failure f)
    (h3 : tryHandleTransientMediaError handler
      ⟨f, idx, ReportKind.mediaTxSocketSend⟩ = some f2) :
    runSingleMediaTransmit handler sendFn idx now (item :: rest) =
      (popWholeTransfer item rest, [item], some f2) := by
  rw [runSingleMediaTransmit]
  simp [h1, h2, h3]

theorem drain_cons_fail_swallow (handler : TransientErrorHandler)
    (sendFn : TxItem → SendOutcome) (idx now : Nat) (item : TxItem)
    (rest : List TxItem) (f : AnyFailure) (h1 : ¬ now ≥ item.deadlineUsec)
    (h2 : sendFn item = SendOutcome.failure f)
    (h3 : tryHandleTransientMediaError handler
      ⟨f, idx, ReportKind.mediaTxSocketSend⟩ = none) :
    runSingleMediaTransmit handler sendFn idx now (item :: rest) =
      ((runSingleMediaTransmit handler sendFn idx now (popWholeTransfer item rest)).1,
        item :: (runSingleMediaTransmit handler sendFn idx now (popWholeTransfer item rest)).2.1,
        (runSingleMediaTransmit handler sendFn idx now (popWholeTransfer item rest)).2.2) := by
  rw [runSingleMediaTransmit]
  simp [h1, h2, h3]

theorem drain_cons_accepted (handler : TransientErrorHandler)
    (sendFn : TxItem → SendOutcome) (idx now : Nat) (item : TxItem)
    (rest : List TxItem) (h1 : ¬ now ≥ item.deadlineUsec)
    (h2 : sendFn item = SendOutcome.success true) :
    runSingleMediaTransmit handler sendFn idx now (item :: rest) =
      ((runSingleMediaTransmit handler sendFn idx now rest).1,
        item :: (runSingleMediaTransmit handler sendFn idx now rest).2.1,
        (runSingleMediaTransmit handler sendFn idx now rest).2.2) := by
  rw [runSingleMediaTransmit]
  simp [h1, h2]

theorem drain_cons_block (handler : TransientErrorHandler)
    (sendFn : TxItem → SendOutcome) (idx now : Nat) (item : TxItem)
    (rest : List TxItem) (h1 : ¬ now ≥ item.deadlineUsec)
    (h2 : sendFn item = SendOutcome.success false) :
    runSingleMediaTransmit handler sendFn idx now (item :: rest) =
      (item :: rest, [item], none) := by
  rw [runSingleMediaTransmit]
  simp [h1, h2]

theorem runSingleMediaTransmit_mem (handler : TransientErrorHandler)
    (sendFn : TxItem → SendOutcome) (idx now : Nat) (q : List TxItem) :
    (∀ c ∈ (runSingleMediaTransmit handler sendFn idx now q).1, c ∈ q) ∧
    (∀ c ∈ (runSingleMediaTransmit handler sendFn idx now q).2.1, c ∈ q) := by
  induction q using runSingleMediaTransmit.induct handler sendFn idx now with
  | case1 => simp [runSingleMediaTransmit]
  | case2 item rest hd ih =>
    rw [drain_cons_expired handler sendFn idx now item rest hd]
    exact ⟨fun c hc => List.mem_cons_of_mem _ (mem_of_mem_popWholeTransfer (ih.1 c hc)),
      fun c hc => List.mem_cons_of_mem _ (mem_of_mem_popWholeTransfer (ih.2 c hc))⟩
  | case3 item rest h1 f h2 f2 h3 =>
    rw [drain_cons_fail_propagate handler sendFn idx now item rest f f2 h1 h2 h3]
    constructor
    · intro c hc
      exact List.mem_cons_of_mem _ (mem_of_mem_popWholeTransfer hc)
    · intro c hc
      simp only [List.mem_singleton] at hc
      simp [hc]
  | case4 item rest h1 f h2 h3 ih =>
    rw [drain_cons_fail_swallow handler sendFn idx now item rest f h1 h2 h3]
    constructor
    · intro c hc
      exact List.mem_cons_of_mem _ (mem_of_mem_popWholeTransfer (ih.1 c hc))
    · intro c hc
      rcases List.mem_cons.mp hc with hc | hc
      · simp [hc]
      · exact List.mem_cons_of_mem _ (mem_of_mem_popWholeTransfer (ih.2 c hc))
  | case5 item rest h1 h2 ih =>
    rw [drain_cons_accepted handler sendFn idx now item rest h1 h2]
    constructor
    · intro c hc
      exact List.mem_cons_of_mem _ (ih.1 c hc)
    · intro c hc
      rcases List.mem_cons.mp hc with hc | hc
      · simp [hc]
      · exact List.mem_cons_of_mem _ (ih.2 c hc)
  | case6 item rest h1 isAccepted h2 h3 =>
    have h2f : sendFn item = SendOutcome.success false := by
      cases isAccepted
      · exact h2
      · exact absurd rfl h3
    rw [drain_cons_block handler sendFn idx now item rest h1 h2f]
    constructor
    · intro c hc
      exact hc
    · intro c hc
      simp only [List.mem_singleton] at hc
      simp [hc]

/-! Concrete fixtures used by the witness theorems. -/

def txItemA : TxItem := ⟨100, 1, 7, 0, 10⟩

def txItemB : TxItem := ⟨200, 1, 7, 0, 11⟩

def txItemC : TxItem := ⟨300, 2, 8, 0, 12⟩

def sendAccepting : TxItem → SendOutcome := fun _ => SendOutcome.success true

def sendBlocking : TxItem → SendOutcome := fun _ => SendOutcome.success false

def sendFailing : TxItem → SendOutcome := fun _ => SendOutcome.failure (AnyFailure.platform 3)

/-- C2: during the TX drain of `run(now)`, a head queue item whose deadline
satisfies `now >= deadline` causes the entire logical transfer (all fragments
sharing its transfer tag) to be popped without any call to the TX socket's
`send` for that transfer, and draining continues with the next item. -/
theorem tx_drain_expired_head_drops_whole_transfer (handler : TransientErrorHandler)
    (sendFn : TxItem → SendOutcome) (idx now : Nat) (item : TxItem)
    (rest : List TxItem) (h : now ≥ item.deadlineUsec) :
    runSingleMediaTransmit handler sendFn idx now (item :: rest) =
      runSingleMediaTransmit handler sendFn idx now (popWholeTransfer item rest) ∧
    (∀ c ∈ (runSingleMediaTransmit handler sendFn idx now (item :: rest)).2.1,
      c.transferTag ≠ item.transferTag) ∧
    (∀ c ∈ (runSingleMediaTransmit handler sendFn idx now (item :: rest)).1,
      c.transferTag ≠ item.transferTag) := by
  have he := drain_cons_expired handler sendFn idx now item rest h
  refine ⟨he, ?_, ?_⟩
  · intro c hc
    rw [he] at hc
    exact tag_ne_of_mem_popWholeTransfer
      ((runSingleMediaTransmit_mem handler sendFn idx now (popWholeTransfer item rest)).2 c hc)
  · intro c hc
    rw [he] at hc
    exact tag_ne_of_mem_popWholeTransfer
      ((runSingleMediaTransmit_mem handler sendFn idx now (popWholeTransfer item rest)).1 c hc)

theorem tx_drain_expired_head_witness :
    100 ≥ txItemA.deadlineUsec ∧
    (runSingleMediaTransmit none sendAccepting 0 100 (txItemA :: [txItemB, txItemC]) =
      runSingleMediaTransmit none sendAccepting 0 100 (popWholeTransfer txItemA [txItemB, txItemC]) ∧
    (∀ c ∈ (runSingleMediaTransmit none sendAccepting 0 100 (txItemA :: [txItemB, txItemC])).2.1,
      c.transferTag ≠ txItemA.transferTag) ∧
    (∀ c ∈ (runSingleMediaTransmit none sendAccepting 0 100 (txItemA :: [txItemB, txItemC])).1,
      c.transferTag ≠ txItemA.transferTag)) :=
  ⟨by decide,
    tx_drain_expired_head_drops_whole_transfer none sendAccepting 0 100 txItemA
      [txItemB, txItemC] (by decide)⟩

/-- C6: during the TX drain, when the TX socket's `send` reports would-block
(success with `is_accepted = false`), draining of that medium stops for the
current tick with the head item left in the queue (so the same item is retried
on the next `run`), and no failure is surfaced. -/
theorem tx_drain_would_block_stops_without_pop (handler : TransientErrorHandler)
    (sendFn : TxItem → SendOutcome) (idx now : Nat) (item : TxItem)
    (rest : List TxItem) (h1 : ¬ now ≥ item.deadlineUsec)
    (h2 : sendFn item = SendOutcome.success false) :
    runSingleMediaTransmit handler sendFn idx now (item :: rest) =
      (item :: rest, [item], none) :=
  drain_cons_block handler sendFn idx now item rest h1 h2

theorem tx_drain_would_block_witness :
    ¬ (50 ≥ txItemA.deadlineUsec) ∧ sendBlocking txItemA = SendOutcome.success false ∧
    runSingleMediaTransmit none sendBlocking 0 50 (txItemA :: [txItemB, txItemC]) =
      (txItemA :: [txItemB, txItemC], [txItemA], none) :=
  ⟨by decide, rfl,
    tx_drain_would_block_stops_without_pop none sendBlocking 0 50 txItemA
      [txItemB, txItemC] (by decide) rfl⟩

/-- C7: during the TX drain, when the TX socket's `send` returns a failure, the
entire logical transfer containing the failed frame is popped (even if the
transient-error handler swallows the failure) and the failure is routed through
the transient-error handler: if that yields `some f2`, `f2` is returned and
draining stops; if it yields `none`, draining continues on the queue with the
whole transfer removed. -/
theorem tx_drain_send_failure_drops_and_routes (handler : TransientErrorHandler)
    (sendFn : TxItem → SendOutcome) (idx now : Nat) (item : TxItem)
    (rest : List TxItem) (f : AnyFailure) (h1 : ¬ now ≥ item.deadlineUsec)
    (h2 : sendFn item = SendOutcome.failure f) :
    (∀ f2, tryHandleTransientMediaError handler
        ⟨f, idx, ReportKind.mediaTxSocketSend⟩ = some f2 →
      runSingleMediaTransmit handler sendFn idx now (item :: rest) =
        (popWholeTransfer item rest, [item], some f2)) ∧
    (tryHandleTransientMediaError handler
        ⟨f, idx, ReportKind.mediaTxSocketSend⟩ = none →
      runSingleMediaTransmit handler sendFn idx now (item :: rest) =
        ((runSingleMediaTransmit handler sendFn idx now (popWholeTransfer item rest)).1,
          item :: (runSingleMediaTransmit handler sendFn idx now (popWholeTransfer item rest)).2.1,
          (runSingleMediaTransmit handler sendFn idx now (popWholeTransfer item rest)).2.2)) ∧
    (∀ c ∈ (runSingleMediaTransmit handler sendFn idx now (item :: rest)).1,
      c.transferTag ≠ item.transferTag) := by
  refine ⟨fun f2 h3 => drain_cons_fail_propagate handler sendFn idx now item rest f f2 h1 h2 h3,
    fun h3 => drain_cons_fail_swallow handler sendFn idx now item rest f h1 h2 h3, ?_⟩
  intro c hc
  cases h3 : tryHandleTransientMediaError handler ⟨f, idx, ReportKind.mediaTxSocketSend⟩ with
  | none =>
    rw [drain_cons_fail_swallow handler sendFn idx now item rest f h1 h2 h3] at hc
    exact tag_ne_of_mem_popWholeTransfer
      ((runSingleMediaTransmit_mem handler sendFn idx now (popWholeTransfer item rest)).1 c hc)
  | some f2 =>
    rw [drain_cons_fail_propagate handler sendFn idx now item rest f f2 h1 h2 h3] at hc
    exact tag_ne_of_mem_popWholeTransfer hc

theorem tx_drain_send_failure_witness :
    ¬ (50 ≥ txItemA.deadlineUsec) ∧ sendFailing txItemA = SendOutcome.failure (AnyFailure.platform 3) ∧
    ((∀ f2, tryHandleTransientMediaError none
        ⟨AnyFailure.platform 3, 0, ReportKind.mediaTxSocketSend⟩ = some f2 →
      runSingleMediaTransmit none sendFailing 0 50 (txItemA :: [txItemB, txItemC]) =
        (popWholeTransfer txItemA [txItemB, txItemC], [txItemA], some f2)) ∧
    (tryHandleTransientMediaError none
        ⟨AnyFailure.platform 3, 0, ReportKind.mediaTxSocketSend⟩ = none →
      runSingleMediaTransmit none sendFailing 0 50 (txItemA :: [txItemB, txItemC]) =
        ((runSingleMediaTransmit none sendFailing 0 50 (popWholeTransfer txItemA [txItemB, txItemC])).1,
          txItemA :: (runSingleMediaTransmit none sendFailing 0 50 (popWholeTransfer txItemA [txItemB, txItemC])).2.1,
          (runSingleMediaTransmit none sendFailing 0 50 (popWholeTransfer txItemA [txItemB, txItemC])).2.2)) ∧
    (∀ c ∈ (runSingleMediaTransmit none sendFailing 0 50 (txItemA :: [txItemB, txItemC])).1,
      c.transferTag ≠ txItemA.transferTag)) :=
  ⟨by decide, rfl,
    tx_drain_send_failure_drops_and_routes none sendFailing 0 50 txItemA
      [txItemB, txItemC] (AnyFailure.platform 3) (by decide) rfl⟩

/-! Helper lemmas: a transient-error handler returning `none` for every report
makes every per-medium failure invisible to the caller of `run` / `send`. -/

theorem tryHandleUdpard_swallow (idx : Nat) (kind : ReportKind) (result : Int) :
    tryHandleTransientUdpardResult (some (fun _ => none)) idx kind result = none := by
  cases h : optAnyFailureFromUdpard result <;>
    simp [tryHandleTransientUdpardResult, h]

theorem drain_swallow_all (sendFn : TxItem → SendOutcome) (idx now : Nat)
    (q : List TxItem) :
    (runSingleMediaTransmit (some (fun _ => none)) sendFn idx now q).2.2 = none := by
  induction q using runSingleMediaTransmit.induct (some (fun _ => none)) sendFn idx now with
  | case1 => simp [runSingleMediaTransmit]
  | case2 item rest hd ih =>
    rw [drain_cons_expired _ sendFn idx now item rest hd]
    exact ih
  | case3 item rest h1 f h2 f2 h3 =>
    simp [tryHandleTransientMediaError] at h3
  | case4 item rest h1 f h2 h3 ih =>
    rw [drain_cons_fail_swallow _ sendFn idx now item rest f h1 h2 h3]
    exact ih
  | case5 item rest h1 h2 ih =>
    rw [drain_cons_accepted _ sendFn idx now item rest h1 h2]
    exact ih
  | case6 item rest h1 isAccepted h2 h3 =>
    have h2f : sendFn item = SendOutcome.success false := by
      cases isAccepted
      · exact h2
      · exact absurd rfl h3
    rw [drain_cons_block _ sendFn idx now item rest h1 h2f]

theorem transmitViaMedia_swallow (now : Nat) (m : MediaSt) :
    (transmitViaMedia (some (fun _ => none)) now m).2 = none := by
  unfold transmitViaMedia withEnsureMediaTxSocket
  split
  · exact drain_swallow_all m.sendFn m.index now m.txQueue
  · split
    · rfl
    · rfl
    · exact drain_swallow_all m.sendFn m.index now m.txQueue

theorem runMediaTransmit_swallow (now : Nat) (ms : List MediaSt) :
    (runMediaTransmit (some (fun _ => none)) now ms).2 = none := by
  induction ms with
  | nil => simp [runMediaTransmit]
  | cons m ms ih =>
    rw [runMediaTransmit]
    rw [transmitViaMedia_swallow now m]
    simpa using ih

theorem pushViaMedia_swallow (meta : TxMetadataVar) (pushResult : Nat → Int)
    (m : MediaSt) :
    (pushViaMedia (some (fun _ => none)) meta pushResult m).2 = none := by
  unfold pushViaMedia withEnsureMediaTxSocket
  split
  · exact tryHandleUdpard_swallow m.index (kindOfTxMetadata meta) (pushResult m.index)
  · split
    · rfl
    · rfl
    · exact tryHandleUdpard_swallow m.index (kindOfTxMetadata meta) (pushResult m.index)

theorem sendTransferLoop_swallow (meta : TxMetadataVar) (pushResult : Nat → Int)
    (ms : List MediaSt) :
    (sendTransferLoop (some (fun _ => none)) meta pushResult ms).2 = none := by
  induction ms with
  | nil => simp [sendTransferLoop]
  | cons m ms ih =>
    rw [sendTransferLoop]
    rw [pushViaMedia_swallow meta pushResult m]
    simpa using ih

/-! Fixtures for the transient-error-policy witness. -/

def mediaNoTx : MediaSt :=
  { index := 0, txSocket := false, rxSocket := none, txQueue := [],
    mkTx := MakeSocketResult.failure (AnyFailure.platform 5),
    mkRx := MakeSocketResult.success true, sendFn := sendAccepting,
    recvOutcome := ReceiveOutcome.nothing, dispResult := 0 }

def mediaOk : MediaSt :=
  { index := 1, txSocket := true, rxSocket := none, txQueue := [],
    mkTx := MakeSocketResult.success true, mkRx := MakeSocketResult.success true,
    sendFn := sendAccepting, recvOutcome := ReceiveOutcome.nothing, dispResult := 0 }

/-- C1: the transient-error policy of `run` and `send`.  With no handler set,
routing returns the original failure (so it is returned from the current
`run` / `send`); with a handler set, routing returns the handler's verdict; a
handler returning `none` for all inputs makes every per-medium failure
invisible (the TX media loop and the send media loop propagate no failure); and
when the per-medium step yields `some f` (the handler propagated, or was
absent), `f` is returned immediately and the remaining media of that tick are
left unprocessed. -/
theorem transient_error_policy :
    (∀ r, tryHandleTransientMediaError none r = some r.failure) ∧
    (∀ h r, tryHandleTransientMediaError (some h) r = h r) ∧
    (∀ idx kind result, tryHandleTransientUdpardResult none idx kind result =
      optAnyFailureFromUdpard result) ∧
    (∀ now ms, (runMediaTransmit (some (fun _ => none)) now ms).2 = none) ∧
    (∀ meta pushResult ms,
      (sendTransferLoop (some (fun _ => none)) meta pushResult ms).2 = none) ∧
    (∀ handler now m m2 f ms, transmitViaMedia handler now m = (m2, some f) →
      runMediaTransmit handler now (m :: ms) = (m2 :: ms, some f)) ∧
    (∀ handler meta pushResult m m2 f ms,
      pushViaMedia handler meta pushResult m = (m2, some f) →
      sendTransferLoop handler meta pushResult (m :: ms) = (m2 :: ms, some f)) := by
  refine ⟨fun r => rfl, fun h r => rfl, ?_, runMediaTransmit_swallow,
    sendTransferLoop_swallow, ?_, ?_⟩
  · intro idx kind result
    cases h : optAnyFailureFromUdpard result <;>
      simp [tryHandleTransientUdpardResult, h]
  · intro handler now m m2 f ms h
    rw [runMediaTransmit]
    rw [h]
  · intro handler meta pushResult m m2 f ms h
    rw [sendTransferLoop]
    rw [h]

theorem transient_error_policy_witness :
    transmitViaMedia none 0 mediaNoTx = (mediaNoTx, some (AnyFailure.platform 5)) ∧
    runMediaTransmit none 0 (mediaNoTx :: [mediaOk]) =
      (mediaNoTx :: [mediaOk], some (AnyFailure.platform 5)) :=
  ⟨rfl, transient_error_policy.2.2.2.2.2.1 none 0 mediaNoTx mediaNoTx
    (AnyFailure.platform 5) [mediaOk] rfl⟩

/-! Node-id policy and node-id-gated RX-socket creation. -/

def stateUnset : TransportState :=
  { nodeId := UDPARD_NODE_ID_UNSET, svcRxSocketsEndpoint := none,
    handler := none, media := [] }

/-- C3: `getLocalNodeId` returns `some id` iff the node id has been set;
`setLocalNodeId` with the current id is a success without change (idempotent);
`setLocalNodeId` with a different id once one is set returns `ArgumentError`
and mutates nothing (neither node id nor RX endpoint); a first set with an
in-range id succeeds and a subsequent `getLocalNodeId` returns it. -/
theorem node_id_policy :
    (∀ s : TransportState, s.nodeId ≤ UDPARD_NODE_ID_UNSET →
      ((getLocalNodeId s).isSome ↔ s.nodeId ≠ UDPARD_NODE_ID_UNSET)) ∧
    (∀ s : TransportState, s.nodeId ≤ UDPARD_NODE_ID_MAX →
      getLocalNodeId s = some s.nodeId) ∧
    (∀ (s : TransportState) (n : Nat), n ≤ UDPARD_NODE_ID_MAX → s.nodeId = n →
      setLocalNodeId s n = (none, s)) ∧
    (∀ (s : TransportState) (n2 : Nat), s.nodeId ≤ UDPARD_NODE_ID_MAX →
      s.nodeId ≠ n2 → setLocalNodeId s n2 = (some AnyFailure.argument, s)) ∧
    (∀ (s : TransportState) (n : Nat), s.nodeId = UDPARD_NODE_ID_UNSET →
      n ≤ UDPARD_NODE_ID_MAX →
      (setLocalNodeId s n).1 = none ∧
      getLocalNodeId (setLocalNodeId s n).2 = some n) := by
  refine ⟨?_, ?_, ?_, ?_, ?_⟩
  · intro s h
    by_cases hgt : s.nodeId > UDPARD_NODE_ID_MAX
    · rw [getLocalNodeId, if_pos hgt]
      simp only [UDPARD_NODE_ID_MAX] at hgt
      simp only [UDPARD_NODE_ID_UNSET] at h ⊢
      simp
      omega
    · rw [getLocalNodeId, if_neg hgt]
      simp only [UDPARD_NODE_ID_MAX] at hgt
      simp only [UDPARD_NODE_ID_UNSET] at h ⊢
      simp
      omega
  · intro s h
    have hgt : ¬ s.nodeId > UDPARD_NODE_ID_MAX := by omega
    simp [getLocalNodeId, hgt]
  · intro s n hn he
    have hgt : ¬ n > UDPARD_NODE_ID_MAX := by omega
    simp [setLocalNodeId, hgt, he]
  · intro s n2 hset hne
    by_cases hgt : n2 > UDPARD_NODE_ID_MAX
    · simp [setLocalNodeId, hgt]
    · have hnu : s.nodeId ≠ UDPARD_NODE_ID_UNSET := by
        simp only [UDPARD_NODE_ID_MAX] at hset
        simp only [UDPARD_NODE_ID_UNSET]
        omega
      simp [setLocalNodeId, hgt, hne, hnu]
  · intro s n hu hn
    have hgt : ¬ n > UDPARD_NODE_ID_MAX := by omega
    have hne : UDPARD_NODE_ID_UNSET ≠ n := by
      simp only [UDPARD_NODE_ID_MAX] at hn
      simp only [UDPARD_NODE_ID_UNSET]
      omega
    simp [setLocalNodeId, hgt, hne, hu, getLocalNodeId]

theorem node_id_policy_witness :
    stateUnset.nodeId = UDPARD_NODE_ID_UNSET ∧ 42 ≤ UDPARD_NODE_ID_MAX ∧
    ((setLocalNodeId stateUnset 42).1 = none ∧
      getLocalNodeId (setLocalNodeId stateUnset 42).2 = some 42) :=
  ⟨rfl, by decide, node_id_policy.2.2.2.2 stateUnset 42 rfl (by decide)⟩

theorem receiveViaMedia_calls_endpoint (handler : TransientErrorHandler)
    (ep : IpEndpoint) (m : MediaSt) :
    ∀ call ∈ (receiveViaMedia handler (some ep) m).2.1, call.endpoint = ep := by
  intro call hc
  cases hrx : m.rxSocket with
  | some e => simp [receiveViaMedia, withEnsureMediaRxSocket, hrx] at hc
  | none =>
    cases hmk : m.mkRx with
    | failure f =>
      simp [receiveViaMedia, withEnsureMediaRxSocket, hrx, hmk] at hc
      simp [hc]
    | success valid =>
      cases valid <;>
        · simp [receiveViaMedia, withEnsureMediaRxSocket, hrx, hmk] at hc
          simp [hc]

theorem runMediaReceive_calls_endpoint (handler : TransientErrorHandler)
    (ep : IpEndpoint) (ms : List MediaSt) :
    ∀ call ∈ (runMediaReceive handler (some ep) ms).2.1, call.endpoint = ep := by
  induction ms with
  | nil => simp [runMediaReceive]
  | cons m ms ih =>
    intro call hc
    rw [runMediaReceive] at hc
    rcases hstep : (receiveViaMedia handler (some ep) m).2.2 with _ | f
    · rw [hstep] at hc
      simp only [List.mem_append] at hc
      rcases hc with hc | hc
      · exact receiveViaMedia_calls_endpoint handler ep m call hc
      · exact ih call hc
    · rw [hstep] at hc
      exact receiveViaMedia_calls_endpoint handler ep m call hc

theorem receiveViaMedia_no_endpoint_no_calls (handler : TransientErrorHandler)
    (m : MediaSt) :
    (receiveViaMedia handler none m).1 = m ∧
    (receiveViaMedia handler none m).2.1 = [] := by
  cases hrx : m.rxSocket <;>
    simp [receiveViaMedia, withEnsureMediaRxSocket, hrx]

theorem runMediaReceive_no_endpoint_no_calls (handler : TransientErrorHandler)
    (ms : List MediaSt) :
    (runMediaReceive handler none ms).1 = ms ∧
    (runMediaReceive handler none ms).2.1 = [] := by
  induction ms with
  | nil => simp [runMediaReceive]
  | cons m ms ih =>
    rw [runMediaReceive]
    have hm := receiveViaMedia_no_endpoint_no_calls handler m
    rcases hstep : (receiveViaMedia handler none m).2.2 with _ | f <;>
      simp [hstep, hm.1, hm.2, ih.1, ih.2]

theorem ensureMediaRxSockets_no_endpoint (handler : TransientErrorHandler)
    (ms : List MediaSt) :
    ensureMediaRxSockets handler none ms = (ms, [], none) := by
  induction ms with
  | nil => simp [ensureMediaRxSockets]
  | cons m ms ih =>
    rw [ensureMediaRxSockets]
    cases hrx : m.rxSocket <;>
      simp [withEnsureMediaRxSocket, hrx, ih]

/-- C4: before `setLocalNodeId` has succeeded there is no service-RX endpoint
(the constructor leaves it empty and a failed set mutates nothing), and with no
endpoint neither `run`'s RX pump nor `ensureMediaRxSockets` (used by the
service-RX session factories) ever invokes `makeRxSocket`; once the node id is
set the endpoint is the one derived from it, `makeRxSocket` is called lazily
with exactly that endpoint, at most once per medium per tick, never again once
the medium's RX socket exists, and a successful creation stores the socket. -/
theorem node_id_gated_rx_sockets :
    (∀ media, (initTransport media).svcRxSocketsEndpoint = none ∧
      (initTransport media).nodeId = UDPARD_NODE_ID_UNSET) ∧
    (∀ (s : TransportState) (n : Nat) f, (setLocalNodeId s n).1 = some f →
      (setLocalNodeId s n).2 = s) ∧
    (∀ (s : TransportState) (n : Nat), s.nodeId = UDPARD_NODE_ID_UNSET →
      n ≤ UDPARD_NODE_ID_MAX →
      (setLocalNodeId s n).2.svcRxSocketsEndpoint = some (serviceRxEndpointOf n)) ∧
    (∀ s now, s.svcRxSocketsEndpoint = none → (run s now).2.1 = []) ∧
    (∀ handler ms, ensureMediaRxSockets handler none ms = (ms, [], none)) ∧
    (∀ handler ep ms, ∀ call ∈ (runMediaReceive handler (some ep) ms).2.1,
      call.endpoint = ep) ∧
    (∀ handler ep m e, m.rxSocket = some e → (receiveViaMedia handler ep m).2.1 = []) ∧
    (∀ handler ep m, m.rxSocket = none → m.mkRx = MakeSocketResult.success true →
      (receiveViaMedia handler (some ep) m).1.rxSocket = some ep ∧
      (receiveViaMedia handler (some ep) m).2.1 = [⟨m.index, ep⟩]) ∧
    (∀ handler ep m, (receiveViaMedia handler ep m).2.1.length ≤ 1) := by
  refine ⟨?_, ?_, ?_, ?_, ensureMediaRxSockets_no_endpoint,
    runMediaReceive_calls_endpoint, ?_, ?_, ?_⟩
  · intro media
    exact ⟨rfl, rfl⟩
  · intro s n f h
    by_cases hgt : n > UDPARD_NODE_ID_MAX
    · simp [setLocalNodeId, hgt]
    · by_cases he : s.nodeId = n
      · simp [setLocalNodeId, hgt, he] at h
      · by_cases hu : s.nodeId = UDPARD_NODE_ID_UNSET
        · have hne : UDPARD_NODE_ID_UNSET ≠ n := fun hh => he (hu.trans hh)
          simp [setLocalNodeId, hgt, he, hu, hne] at h
        · simp [setLocalNodeId, hgt, he, hu]
  · intro s n hu hn
    have hgt : ¬ n > UDPARD_NODE_ID_MAX := by omega
    have hne : UDPARD_NODE_ID_UNSET ≠ n := by
      simp only [UDPARD_NODE_ID_MAX] at hn
      simp only [UDPARD_NODE_ID_UNSET]
      omega
    simp [setLocalNodeId, hgt, hne, hu]
  · intro s now hep
    unfold run
    rcases htx : (runMediaTransmit s.handler now s.media).2 with _ | f
    · simp only [htx, hep]
      exact (runMediaReceive_no_endpoint_no_calls s.handler _).2
    · simp [htx]
  · intro handler ep m e h
    simp [receiveViaMedia, withEnsureMediaRxSocket, h]
  · intro handler ep m hrx hmk
    simp [receiveViaMedia, withEnsureMediaRxSocket, hrx, hmk]
  · intro handler ep m
    cases ep with
    | none => simp [(receiveViaMedia_no_endpoint_no_calls handler m).2]
    | some e =>
      cases hrx : m.rxSocket with
      | some e2 => simp [receiveViaMedia, withEnsureMediaRxSocket, hrx]
      | none =>
        cases hmk : m.mkRx with
        | failure f => simp [receiveViaMedia, withEnsureMediaRxSocket, hrx, hmk]
        | success valid =>
          cases valid <;> simp [receiveViaMedia, withEnsureMediaRxSocket, hrx, hmk]

def mediaFreshRx : MediaSt :=
  { index := 2, txSocket := true, rxSocket := none, txQueue := [],
    mkTx := MakeSocketResult.success true, mkRx := MakeSocketResult.success true,
    sendFn := sendAccepting, recvOutcome := ReceiveOutcome.nothing, dispResult := 0 }

theorem node_id_gated_rx_sockets_witness :
    mediaFreshRx.rxSocket = none ∧
    mediaFreshRx.mkRx = MakeSocketResult.success true ∧
    ((receiveViaMedia none (some (serviceRxEndpointOf 42)) mediaFreshRx).1.rxSocket =
        some (serviceRxEndpointOf 42) ∧
      (receiveViaMedia none (some (serviceRxEndpointOf 42)) mediaFreshRx).2.1 =
        [⟨mediaFreshRx.index, serviceRxEndpointOf 42⟩]) :=
  ⟨rfl, rfl,
    node_id_gated_rx_sockets.2.2.2.2.2.2.2.1 none (serviceRxEndpointOf 42)
      mediaFreshRx rfl rfl⟩

/-! Session-tree uniqueness and rollback. -/

theorem removeNodeFor_cons_self (tree : List Nat) (portId : Nat) (h : portId ∉ tree) :
    removeNodeFor (portId :: tree) portId = tree := by
  simp only [removeNodeFor, List.filter_cons]
  simp only [decide_eq_true_eq, not_true, if_false, if_neg (not_not_intro rfl)]
  refine List.filter_eq_self.mpr ?_
  intro a ha
  simp only [decide_eq_true_eq]
  exact fun hk => h (hk ▸ ha)

/-- C5: for every session kind and port id, the tree holds at most one node:
inserting for an already-present port fails with the duplicate error and leaves
the tree unchanged; a failed session construction rolls the fresh node back; a
successful construction leaves exactly one node for the port; a `Destroyed`
session event removes the matching node of the matching tree; and no operation
introduces duplicate keys. -/
theorem rx_session_tree_uniqueness :
    (∀ tree portId mk, portId ∈ tree →
      makeAnyRxSession tree portId mk = (tree, some AnyFailure.duplicate, false)) ∧
    (∀ tree portId f, portId ∉ tree →
      makeAnyRxSession tree portId (some f) = (tree, some f, false)) ∧
    (∀ tree portId, portId ∉ tree →
      makeAnyRxSession tree portId none = (portId :: tree, none, true) ∧
      List.count portId (portId :: tree) = 1) ∧
    (∀ tree portId mk, tree.Nodup → ((makeAnyRxSession tree portId mk).1).Nodup) ∧
    (∀ tree portId, portId ∉ removeNodeFor tree portId) ∧
    (∀ (t : SessionTrees) (pid : Nat),
      pid ∉ (onSessionEvent t (SessionEvent.msgDestroyed pid)).msg ∧
      pid ∉ (onSessionEvent t (SessionEvent.reqDestroyed pid)).req ∧
      pid ∉ (onSessionEvent t (SessionEvent.resDestroyed pid)).res) := by
  have hrem : ∀ (tree : List Nat) (portId : Nat), portId ∉ removeNodeFor tree portId := by
    intro tree portId hmem
    have := List.of_mem_filter hmem
    simp at this
  refine ⟨?_, ?_, ?_, ?_, hrem, ?_⟩
  · intro tree portId mk h
    simp [makeAnyRxSession, ensureNewNodeFor, h]
  · intro tree portId f h
    simp [makeAnyRxSession, ensureNewNodeFor, h, removeNodeFor_cons_self tree portId h]
  · intro tree portId h
    refine ⟨by simp [makeAnyRxSession, ensureNewNodeFor, h], ?_⟩
    rw [List.count_cons_self, List.count_eq_zero.mpr h]
  · intro tree portId mk hnd
    by_cases h : portId ∈ tree
    · simp [makeAnyRxSession, ensureNewNodeFor, h, hnd]
    · cases mk with
      | some f =>
        simp [makeAnyRxSession, ensureNewNodeFor, h, removeNodeFor_cons_self tree portId h, hnd]
      | none =>
        simp [makeAnyRxSession, ensureNewNodeFor, h, hnd]
  · intro t pid
    exact ⟨hrem t.msg pid, hrem t.req pid, hrem t.res pid⟩

theorem rx_session_tree_witness :
    (7 : Nat) ∈ [7, 9] ∧
    makeAnyRxSession [7, 9] 7 none = ([7, 9], some AnyFailure.duplicate, false) :=
  ⟨by decide, rx_session_tree_uniqueness.1 [7, 9] 7 none (by decide)⟩

/-! CAN message TX session: deadline derivation. -/

/-- C8: `send(metadata, fragments)` derives the framer deadline as
`metadata.timestamp + send_timeout` (never from `now`, which `send` does not
even receive), where `send_timeout` is the value last passed to
`setSendTimeout`, or 1 second (1 000 000 µs) if it was never called. -/
theorem send_deadline_is_timestamp_plus_timeout :
    (∀ sid allocOk s, CanMessageTxSession.make sid allocOk = Except.ok s →
      s.subjectId = sid ∧ s.sendTimeoutUsec = 1000000) ∧
    (∀ (s : CanMessageTxSession) (d : Nat), (s.setSendTimeout d).sendTimeoutUsec = d ∧
      (s.setSendTimeout d).subjectId = s.subjectId) ∧
    (∀ (s : CanMessageTxSession) (md : TransferMetadata),
      (s.send md).deadlineUsec = md.timestampUsec + s.sendTimeoutUsec) ∧
    (∀ (s : CanMessageTxSession) (ds : List Nat) (d : Nat),
      ((ds ++ [d]).foldl CanMessageTxSession.setSendTimeout s).sendTimeoutUsec = d) := by
  refine ⟨?_, fun s d => ⟨rfl, rfl⟩, fun s md => rfl, ?_⟩
  · intro sid allocOk s h
    unfold CanMessageTxSession.make at h
    split at h
    · cases h
    · split at h
      · cases h
        exact ⟨rfl, rfl⟩
      · cases h
  · intro s ds d
    rw [List.foldl_append]
    rfl

theorem send_deadline_witness :
    CanMessageTxSession.make 100 true = Except.ok ⟨100, 1000000⟩ ∧
    ((⟨100, 1000000⟩ : CanMessageTxSession).subjectId = 100 ∧
      (⟨100, 1000000⟩ : CanMessageTxSession).sendTimeoutUsec = 1000000) :=
  ⟨rfl, send_deadline_is_timestamp_plus_timeout.1 100 true ⟨100, 1000000⟩ rfl⟩

/-! Executor callback handle semantics. -/

/-- C9: destroying (or resetting) a handle that owns a callback removes that
callback from the executor; moving transfers ownership, making the moved-from
handle inert (its destruction removes nothing); a default-constructed handle's
destruction removes nothing; a registered callback is removed at most once
through its handle (after one reset, further destruction is a no-op); and a
fresh registration hands out an owning handle. -/
theorem callback_handle_semantics :
    (∀ (h : CallbackHandle) (registered : List Nat), h.owns = true →
      h.destroy registered = (removeCallbackById registered h.id).1 ∧
      h.id ∉ h.destroy registered) ∧
    (∀ (dst src : CallbackHandle) (registered : List Nat),
      CallbackHandle.moveFrom dst src registered =
        (⟨src.id, src.owns⟩, ⟨src.id, false⟩, dst.destroy registered)) ∧
    (∀ (dst src : CallbackHandle) (registered registered2 : List Nat),
      ((CallbackHandle.moveFrom dst src registered).2.1).destroy registered2 = registered2) ∧
    (∀ registered, defaultCallbackHandle.destroy registered = registered) ∧
    (∀ (h : CallbackHandle) (registered registered2 : List Nat),
      ((h.reset registered).1).destroy registered2 = registered2) ∧
    (∀ (registered : List Nat) (id : Nat),
      (registerCallback registered (some id)).2 = some ⟨id, true⟩) := by
  refine ⟨?_, fun dst src registered => rfl, fun dst src r r2 => rfl,
    fun registered => rfl, ?_, fun registered id => rfl⟩
  · intro h registered howns
    constructor
    · simp [CallbackHandle.destroy, CallbackHandle.reset, howns]
    · intro hmem
      simp only [CallbackHandle.destroy, CallbackHandle.reset, howns, if_pos,
        removeCallbackById] at hmem
      have := List.of_mem_filter hmem
      simp at this
  · intro h registered registered2
    by_cases howns : h.owns = true
    · simp [CallbackHandle.reset, CallbackHandle.destroy, howns]
    · simp [CallbackHandle.reset, CallbackHandle.destroy, howns]

theorem callback_handle_witness :
    (⟨3, true⟩ : CallbackHandle).owns = true ∧
    ((⟨3, true⟩ : CallbackHandle).destroy [3, 5] = (removeCallbackById [3, 5] 3).1 ∧
      (3 : Nat) ∉ (⟨3, true⟩ : CallbackHandle).destroy [3, 5]) :=
  ⟨rfl, callback_handle_semantics.1 ⟨3, true⟩ [3, 5] rfl⟩

/-! TX-session factories and TX-socket creation. -/

theorem withEnsureTx_noHandler_socket (m : MediaSt)
    (h : (withEnsureMediaTxSocket none m (fun m2 => (m2, none))).2 = none) :
    (withEnsureMediaTxSocket none m (fun m2 => (m2, none))).1.txSocket = true := by
  unfold withEnsureMediaTxSocket at h ⊢
  by_cases hsock : m.txSocket = true
  · simp [hsock]
  · simp only [if_neg hsock] at h ⊢
    cases hmk : m.mkTx with
    | failure f =>
      rw [hmk] at h
      simp [tryHandleTransientMediaError] at h
    | success valid =>
      cases valid with
      | false =>
        rw [hmk] at h
        simp [tryHandleTransientMediaError] at h
      | true =>
        rfl

theorem ensureTx_noHandler_all_sockets (ms : List MediaSt)
    (h : (ensureMediaTxSockets none ms).2 = none) :
    ∀ m ∈ (ensureMediaTxSockets none ms).1, m.txSocket = true := by
  induction ms with
  | nil =>
    intro m hm
    simp [ensureMediaTxSockets] at hm
  | cons m ms ih =>
    rw [ensureMediaTxSockets] at h ⊢
    rcases hstep : (withEnsureMediaTxSocket none m (fun m2 => (m2, none))).2 with _ | f
    · rw [hstep] at h
      simp only [hstep]
      intro m2 hm2
      rcases List.mem_cons.mp hm2 with hm2 | hm2
      · rw [hm2]
        exact withEnsureTx_noHandler_socket m hstep
      · exact ih (by simpa using h) m2 hm2
    · rw [hstep] at h
      simp at h

/-- C10 counterexample: with a transient-error handler that swallows the
TX-socket-creation failure, `makeMessageTxSession` succeeds although the only
medium's `makeTxSocket` failed and it holds no TX socket — refuting the claim's
conclusion that a successfully created TX session implies every medium holds a
TX socket (and its premise that a socket-creation failure is always returned
from the factory). -/
def mediaTxFailing : MediaSt :=
  { index := 0, txSocket := false, rxSocket := none, txQueue := [],
    mkTx := MakeSocketResult.failure (AnyFailure.platform 7),
    mkRx := MakeSocketResult.success true, sendFn := sendAccepting,
    recvOutcome := ReceiveOutcome.nothing, dispResult := 0 }

def stateSwallowing : TransportState :=
  { nodeId := UDPARD_NODE_ID_UNSET, svcRxSocketsEndpoint := none,
    handler := some (fun _ => none), media := [mediaTxFailing] }

theorem tx_session_factory_succeeds_without_socket :
    mediaTxFailing.mkTx = MakeSocketResult.failure (AnyFailure.platform 7) ∧
    (makeMessageTxSession stateSwallowing none).2 = (none, true) ∧
    (makeMessageTxSession stateSwallowing none).1.media = [mediaTxFailing] ∧
    mediaTxFailing.txSocket = false :=
  ⟨rfl, rfl, rfl, rfl⟩

/-- C10 (amended): every TX-session factory first runs `ensureMediaTxSockets`;
if that propagates a failure (in particular, always, when no transient-error
handler is set and some `makeTxSocket` fails) the factory returns that failure
and no session is created; a successful factory call implies the ensure pass
propagated no failure; and when no transient-error handler is set, a
successfully created TX session implies every medium holds a TX socket
(a handler that swallows a creation failure voids this implication). -/
theorem tx_session_factories_ensure_sockets :
    (∀ s mk f, (ensureMediaTxSockets s.handler s.media).2 = some f →
      makeMessageTxSession s mk =
        ({ s with media := (ensureMediaTxSockets s.handler s.media).1 }, some f, false) ∧
      makeRequestTxSession s mk =
        ({ s with media := (ensureMediaTxSockets s.handler s.media).1 }, some f, false) ∧
      makeResponseTxSession s mk =
        ({ s with media := (ensureMediaTxSockets s.handler s.media).1 }, some f, false)) ∧
    (∀ s mk, (makeMessageTxSession s mk).2.2 = true →
      (ensureMediaTxSockets s.handler s.media).2 = none ∧ mk = none) ∧
    (∀ s mk, s.handler = none → (makeMessageTxSession s mk).2.2 = true →
      ∀ m ∈ (makeMessageTxSession s mk).1.media, m.txSocket = true) := by
  refine ⟨?_, ?_, ?_⟩
  · intro s mk f h
    refine ⟨?_, ?_, ?_⟩ <;>
      simp [makeMessageTxSession, makeRequestTxSession, makeResponseTxSession,
        makeTxSessionViaEnsure, h]
  · intro s mk h
    simp only [makeMessageTxSession, makeTxSessionViaEnsure] at h
    rcases he : (ensureMediaTxSockets s.handler s.media).2 with _ | f
    · rw [he] at h
      cases mk with
      | none => exact ⟨rfl, rfl⟩
      | some f2 => simp at h
    · rw [he] at h
      simp at h
  · intro s mk hh h m hm
    simp only [makeMessageTxSession, makeTxSessionViaEnsure] at h hm
    rcases he : (ensureMediaTxSockets s.handler s.media).2 with _ | f
    · rw [he] at h hm
      cases mk with
      | none =>
        have hm2 : m ∈ (ensureMediaTxSockets s.handler s.media).1 := hm
        rw [hh] at he hm2
        exact ensureTx_noHandler_all_sockets s.media he m hm2
      | some f2 => simp at h
    · rw [he] at h
      simp at h

def mediaNeedingTx : MediaSt :=
  { index := 0, txSocket := false, rxSocket := none, txQueue := [],
    mkTx := MakeSocketResult.success true, mkRx := MakeSocketResult.success true,
    sendFn := sendAccepting, recvOutcome := ReceiveOutcome.nothing, dispResult := 0 }

def stateNoHandler : TransportState :=
  { nodeId := UDPARD_NODE_ID_UNSET, svcRxSocketsEndpoint := none,
    handler := none, media := [mediaNeedingTx] }

theorem tx_session_factories_witness :
    stateNoHandler.handler = none ∧
    (makeMessageTxSession stateNoHandler none).2.2 = true ∧
    (∀ m ∈ (makeMessageTxSession stateNoHandler none).1.media, m.txSocket = true) :=
  ⟨rfl, rfl, tx_session_factories_ensure_sockets.2.2 stateNoHandler none rfl rfl⟩

end Libcyphal
